import Mathlib

/-!
Shallow embedding of `webhook_receiver.py` (TradingView webhook receiver).

Conventions of the embedding:
* Python / JSON numeric values are modelled as exact rationals (`ℚ`);
  the spec's own arithmetic examples (`6 * 1.1 = 6.6`) use exact decimal
  arithmetic, so `ℚ` is the faithful idealisation.
* JSON values arriving in the webhook payload are modelled by `JValue`.
* The per-strategy CSV files on disk are modelled by `Store`, a map from
  strategy name to an optional list of rows (`none` = file does not exist).
* A Python expression that raises an uncaught exception is modelled by
  `Except.error`; exceptions that the source catches locally are resolved
  inside the corresponding definition.
* External side effects that only produce files are recorded as lists of
  artifact file names; the matplotlib charting body (external library code)
  is passed in as an oracle `chart : List Obs → Except String Unit` so that
  the try/except wrapper of `generate_visualization` can be modelled
  faithfully.
-/

/-- A JSON-ish value as received from the webhook payload.  `bool` is kept
separate because Python's `bool` is an `int` subtype and hence matches the
`isinstance(x, (int, float))` test in the source. -/
inductive JValue : Type where
  | num (q : ℚ)
  | bool (b : Bool)
  | str (s : String)
  | obj (fields : List (String × JValue))
  | arr (elems : List JValue)
  | null
deriving Repr

/-- Digit test used by the decimal-string parser. -/
def isDigitCh (c : Char) : Bool := '0' ≤ c && c ≤ '9'

/-- Numeric value of a digit character. -/
def digitVal (c : Char) : Nat := c.toNat - '0'.toNat

/-- Natural number denoted by a digit list (most significant first). -/
def natOfDigits (l : List Char) : Nat := l.foldl (fun n c => n * 10 + digitVal c) 0

/-- Parse an unsigned decimal literal (`"12"`, `"12.5"`, `".5"`, `"12."`),
the fragment of Python's `float(str)` grammar relevant here; anything else
fails. -/
def parseUnsignedDec (s : List Char) : Option ℚ :=
  let ip := s.takeWhile isDigitCh
  let rest := s.dropWhile isDigitCh
  match rest with
  | [] => if ip.isEmpty then none else some ((natOfDigits ip : ℚ))
  | '.' :: fp =>
      if fp.all isDigitCh && !(ip.isEmpty && fp.isEmpty) then
        some ((natOfDigits ip : ℚ) + (natOfDigits fp : ℚ) / (10 ^ fp.length))
      else none
  | _ => none

/-- Python's `float` applied to a string: optional sign, then a decimal
literal; non-numeric strings fail (`ValueError`). -/
def pyFloatOfString (s : String) : Option ℚ :=
  match s.data with
  | '-' :: rest => (parseUnsignedDec rest).map Neg.neg
  | '+' :: rest => parseUnsignedDec rest
  | l => parseUnsignedDec l

/-- Python's `float(x)` on a JSON value: numbers and bools convert, strings
are parsed, everything else raises (`TypeError`), modelled as `none`. -/
def pyFloat : JValue → Option ℚ
  | .num q => some q
  | .bool b => some (if b then 1 else 0)
  | .str s => pyFloatOfString s
  | .obj _ => none
  | .arr _ => none
  | .null => none

/-- One branch of `update_optimization_history`'s per-key coercion
(source lines 96-125).  `none` input means the key is absent from the
mapping.  NB the nested-`value` branch calls `float` OUTSIDE the
`try/except`, so an uncoercible nested `value` raises an uncaught
exception (`Except.error`); only the final `else` branch is protected. -/
def coerceField : Option JValue → Except Unit ℚ
  | none => .ok 0
  | some v =>
      match v with
      | .obj fields =>
          match fields.lookup "value" with
          | some w =>
              match pyFloat w with
              | some q => .ok q
              | none => .error ()
          | none =>
              -- dict without a "value" key: falls through to the final
              -- `else`, where `float(dict)` raises TypeError, caught → 0
              .ok 0
      | .num q => .ok q
      | .bool b => .ok (if b then 1 else 0)
      | .str s =>
          match pyFloatOfString s with
          | some q => .ok q
          | none => .ok 0
      | .arr _ => .ok 0
      | .null => .ok 0

/-- One row of the optimization-history table (an Observation). -/
structure Obs where
  timestamp : String
  total_return_pct : ℚ
  win_rate : ℚ
  profit_factor : ℚ
  max_drawdown_pct : ℚ
  total_trades : ℚ
  take_profit : ℚ
  stop_loss : ℚ
  trailing_stop : ℚ
  trailing_activation : ℚ
deriving Repr, DecidableEq

/-- Placeholder row used only as the default of `List.getD`. -/
def obsDefault : Obs := ⟨"", 0, 0, 0, 0, 0, 0, 0, 0, 0⟩

/-- Build the row appended by `update_optimization_history` from the raw
metrics and parameters mappings (source lines 91-125). -/
def mkRow (ts : String) (metrics parameters : List (String × JValue)) :
    Except Unit Obs := do
  let ret ← coerceField (metrics.lookup "total_return_pct")
  let wr ← coerceField (metrics.lookup "win_rate")
  let pf ← coerceField (metrics.lookup "profit_factor")
  let dd ← coerceField (metrics.lookup "max_drawdown_pct")
  let tt ← coerceField (metrics.lookup "total_trades")
  let tp ← coerceField (parameters.lookup "take_profit")
  let sl ← coerceField (parameters.lookup "stop_loss")
  let trs ← coerceField (parameters.lookup "trailing_stop")
  let tra ← coerceField (parameters.lookup "trailing_activation")
  pure ⟨ts, ret, wr, pf, dd, tt, tp, sl, trs, tra⟩

/-- The per-strategy history files: `none` models a CSV file that does not
exist on disk. -/
def Store : Type := String → Option (List Obs)

/-- The store of a fresh process: no history file exists. -/
def emptyStore : Store := fun _ => none

/-- `update_optimization_history` (source lines 86-138): coerce the row and
append it to the strategy's table, creating the table if absent. -/
def update_optimization_history (store : Store) (strategy_name ts : String)
    (metrics parameters : List (String × JValue)) : Except Unit Store := do
  let row ← mkRow ts metrics parameters
  pure (fun n => if n = strategy_name
                 then some ((store n).getD [] ++ [row])
                 else store n)

/-- Read a strategy's full history; a missing file reads as empty. -/
def load (store : Store) (strategy_name : String) : List Obs :=
  (store strategy_name).getD []

/-- Index of the first occurrence of the running maximum: accumulator form.
`best` is the best value seen so far, at index `bi`; `cur` is the index of
the head of `l`. -/
def idxmaxAux (l : List ℚ) (best : ℚ) (bi cur : ℕ) : ℕ :=
  match l with
  | [] => bi
  | y :: ys => if best < y then idxmaxAux ys y cur (cur + 1)
               else idxmaxAux ys best bi (cur + 1)

/-- `pandas.Series.idxmax` on a positional index: the index of the first
occurrence of the maximum (0 on the empty list, which pandas rejects;
callers guarantee nonemptiness). -/
def idxmax : List ℚ → ℕ
  | [] => 0
  | x :: xs => idxmaxAux xs x 0 1

/-- Risk-adjusted score computed at source line 163:
`profit_factor * win_rate / (max_drawdown_pct + 0.1)`. -/
def riskScore (o : Obs) : ℚ :=
  o.profit_factor * o.win_rate / (o.max_drawdown_pct + 1/10)

/-- A 4-tuple of strategy parameters. -/
structure Params where
  take_profit : ℚ
  stop_loss : ℚ
  trailing_stop : ℚ
  trailing_activation : ℚ
deriving Repr, DecidableEq

/-- Extract the parameter 4-tuple from a history row (source lines 167-180). -/
def paramsOf (o : Obs) : Params :=
  ⟨o.take_profit, o.stop_loss, o.trailing_stop, o.trailing_activation⟩

/-- The derived suggestion structure. -/
structure SuggestionSet where
  best_return : Params
  best_risk_adjusted : Params
  exploratory : Params
deriving Repr, DecidableEq

/-- The selection core of `generate_optimization_suggestions`
(source lines 158-185), for a history with at least 3 rows. -/
def computeSuggestions (df : List Obs) : SuggestionSet :=
  let best_return_idx := idxmax (df.map (fun o => o.total_return_pct))
  let best_risk_adjusted_idx := idxmax (df.map riskScore)
  let best_return_params := paramsOf (df.getD best_return_idx obsDefault)
  let best_risk_adjusted_params := paramsOf (df.getD best_risk_adjusted_idx obsDefault)
  let exploratory_params : Params :=
    { best_return_params with
      take_profit := best_return_params.take_profit * (11/10),
      stop_loss := best_return_params.stop_loss * (9/10) }
  ⟨best_return_params, best_risk_adjusted_params, exploratory_params⟩

/-- The Suggestion-Set result of `generate_optimization_suggestions`
(source lines 140-154): `none` when the history file is missing or has
fewer than 3 rows, otherwise the computed suggestions. -/
def suggest (store : Store) (strategy_name : String) : Option SuggestionSet :=
  match store strategy_name with
  | none => none
  | some df => if df.length < 3 then none else some (computeSuggestions df)

/-- Left-pad a digit string with zeros to width `k`. -/
def padZeros (s : String) (k : ℕ) : String :=
  String.mk (List.replicate (k - s.length) '0') ++ s

/-- Python's `str` on a float value, restricted to the decimal-representable
rationals this program produces: minimal decimal digits, with a forced
`.0` on integral values (`str(5.0) = "5.0"`, `str(6.6) = "6.6"`). -/
def fmtQ (q : ℚ) : String :=
  match (List.range 40).find? (fun k => (q * (10:ℚ) ^ k).den == 1) with
  | some k =>
      let n : ℤ := (q * (10:ℚ) ^ k).num
      let sign := if n < 0 then "-" else ""
      let a := n.natAbs
      if k == 0 then sign ++ (toString a ++ ".0")
      else sign ++ (toString (a / 10 ^ k) ++ ("." ++ padZeros (toString (a % 10 ^ k)) k))
  | none => toString q

/-- `parameters.get(key, default)` on the parameter mapping. -/
def getParam (ps : List (String × ℚ)) (k : String) (d : ℚ) : ℚ :=
  (ps.lookup k).getD d

/-- `generate_pine_script` (source lines 260-305), as the pure text producer:
the fixed template filled with strategy name, suggestion label, generation
date and the four parameter values, each defaulting via `parameters.get`
to 5.0 / 3.0 / 1.0 / 0.5. -/
def generate_pine_script (strategy_name suggestion_type date : String)
    (parameters : List (String × ℚ)) : String :=
  "// TradingView Pine Script Template\n// Optimized parameters for " ++
  (strategy_name ++ (" - " ++ (suggestion_type ++
  ("\n// Generated on " ++ (date ++
  ("\n\n//@version=5\nstrategy(\"" ++ (strategy_name ++ (" - " ++ (suggestion_type ++
  ("\", overlay=true)\n\n// Input parameters\ntakeProfit = " ++
  (fmtQ (getParam parameters "take_profit" 5) ++
  (" // Optimized\nstopLoss = " ++
  (fmtQ (getParam parameters "stop_loss" 3) ++
  (" // Optimized\ntrailingStopPct = " ++
  (fmtQ (getParam parameters "trailing_stop" 1) ++
  (" // Optimized\ntrailingActivationThreshold = " ++
  (fmtQ (getParam parameters "trailing_activation" (1/2)) ++
  (" // Optimized\n\n// Your strategy logic goes here\n// This is a placeholder template\n\n// Example entry condition\nlongCondition = ta.crossover(ta.sma(close, 14), ta.sma(close, 28))\nif (longCondition)\n    strategy.entry(\"Long\", strategy.long)\n    \n// Example exit with optimized parameters\nstrategy.exit(\"TP/SL\", \"Long\", profit=takeProfit, loss=stopLoss, trail_points=trailingStopPct, trail_offset=trailingActivationThreshold)\n"))))))))))))))))))

/-- `generate_pine_script` as the source actually executes it (lines
260-305): the function reads the current date from the clock itself
(`now` is the ambient `datetime.datetime.now().strftime("%Y-%m-%d")`
reading at call time, an input from the environment, NOT one of the
function's Python arguments), formats the template, and then itself
writes the script file into the artifact directory.  Result: the
formatted text together with the list of file writes performed
(file name, content). -/
def generate_pine_script_io (now strategy_name suggestion_type : String)
    (parameters : List (String × ℚ)) : String × List (String × String) :=
  let formatted_script := generate_pine_script strategy_name suggestion_type now parameters
  (formatted_script,
   [(strategy_name ++ "_" ++ (suggestion_type ++ "_suggested.pine"), formatted_script)])

/-- `generate_sample_pine_script` (source lines 229-258): the fixed sample
template with hard-coded parameter constants 5.0 / 3.0 / 1.5 / 2.0. -/
def generate_sample_pine_script (strategy_name date : String) : String :=
  "// TradingView Pine Script Template\n// Sample script for " ++
  (strategy_name ++ ("\n// Generated on " ++ (date ++
  ("\n\n//@version=5\nstrategy(\"" ++ (strategy_name ++
  (" - Sample\", overlay=true)\n\n// Input parameters\ntakeProfit = 5.0\nstopLoss = 3.0\ntrailingStop = 1.5\ntrailingActivation = 2.0\n\n// Example entry condition\nlongCondition = ta.crossover(ta.sma(close, 14), ta.sma(close, 28))\nif (longCondition)\n    strategy.entry(\"Long\", strategy.long)\n    \n// Example exit with parameters\nstrategy.exit(\"TP/SL\", \"Long\", profit=takeProfit, loss=stopLoss, trail_points=trailingStop, trail_offset=trailingActivation)\n"))))))

/-- `generate_visualization` (source lines 307-379).  The matplotlib body is
external library code, passed in as the oracle `chart`; the source wraps the
whole body in `try/except`, logging any failure and returning normally, so
the result is `(chart artifact names, error-log lines)` and never an
exception. -/
def generate_visualization (chart : List Obs → Except String Unit)
    (strategy_name : String) (df : List Obs) : List String × List String :=
  match chart df with
  | .ok _ => ([strategy_name ++ "_parameter_analysis.png",
               strategy_name ++ "_correlation_analysis.png"], [])
  | .error e => ([], ["Visualization error: " ++ e])

/-- `generate_optimization_suggestions` (source lines 140-227) as the full
flow: returns the computed Suggestion Set (or `none`), the names of the
artifact files written, and the error-log lines appended. -/
def generate_optimization_suggestions (chart : List Obs → Except String Unit)
    (store : Store) (strategy_name : String) :
    Option SuggestionSet × List String × List String :=
  match store strategy_name with
  | none => (none, [strategy_name ++ "_sample.pine"], [])
  | some df =>
      if df.length < 3 then (none, [strategy_name ++ "_sample.pine"], [])
      else
        let s := computeSuggestions df
        let pine : List String :=
          [strategy_name ++ "_best_return_suggested.pine",
           strategy_name ++ "_best_risk_adjusted_suggested.pine",
           strategy_name ++ "_exploratory_suggested.pine"]
        let viz := if 5 ≤ df.length
                   then generate_visualization chart strategy_name df
                   else ([], [])
        (some s, pine ++ (viz.1 ++ [strategy_name ++ "_suggestions.json"]), viz.2)

/-- The core dispatch of the `webhook` endpoint (source lines 49-57):
`if metrics and parameters:` append to history and run the suggestion flow,
otherwise emit the sample script.  Empty mappings model both absent keys
(`data.get(..., {})`) and explicit empty objects; both are falsy in Python. -/
def webhook (chart : List Obs → Except String Unit) (store : Store)
    (strategy_name ts : String) (metrics parameters : List (String × JValue)) :
    Except Unit (Store × Option SuggestionSet × List String) :=
  if metrics.isEmpty || parameters.isEmpty then
    .ok (store, none, [strategy_name ++ "_sample.pine"])
  else
    match update_optimization_history store strategy_name ts metrics parameters with
    | .error e => .error e
    | .ok s2 =>
        let r := generate_optimization_suggestions chart s2 strategy_name
        .ok (s2, r.1, r.2.1)

/-- `sub` occurs as a contiguous substring of `s`. -/
def strHasSub (s sub : String) : Prop :=
  ∃ a b : String, s = a ++ (sub ++ b)

/-- Invariant of the `idxmax` accumulator: either every remaining element is
at most the best seen so far (and the accumulator index wins), or the result
points at the first strict improvement over `best`, which is also a
first-occurrence maximum of the remaining list. -/
theorem idxmaxAux_spec (xs : List ℚ) : ∀ (best : ℚ) (bi cur : ℕ),
    (idxmaxAux xs best bi cur = bi ∧ ∀ j, j < xs.length → xs.getD j 0 ≤ best)
    ∨ (∃ k, k < xs.length ∧ idxmaxAux xs best bi cur = cur + k
        ∧ best < xs.getD k 0
        ∧ (∀ j, j < xs.length → xs.getD j 0 ≤ xs.getD k 0)
        ∧ (∀ j, j < k → xs.getD j 0 < xs.getD k 0)) := by
  induction xs with
  | nil =>
      intro best bi cur
      left
      exact ⟨rfl, fun j hj => by simp at hj⟩
  | cons y ys ih =>
      intro best bi cur
      by_cases h : best < y
      · rw [show idxmaxAux (y :: ys) best bi cur = idxmaxAux ys y cur (cur + 1) by
          simp [idxmaxAux, if_pos h]]
        rcases ih y cur (cur + 1) with ⟨hr, hb⟩ | ⟨k, hk, hr, hgt, hmax, hfirst⟩
        · right
          refine ⟨0, by simp, by simpa using hr, by simpa using h, ?_, ?_⟩
          · intro j hj
            cases j with
            | zero => simp
            | succ j =>
                simp only [List.getD_cons_succ, List.getD_cons_zero]
                exact hb j (by simpa using hj)
          · intro j hj; omega
        · right
          refine ⟨k + 1, by simpa using hk, ?_, ?_, ?_, ?_⟩
          · rw [hr]; omega
          · simpa using h.trans hgt
          · intro j hj
            cases j with
            | zero => simpa using le_of_lt hgt
            | succ j =>
                simp only [List.getD_cons_succ]
                exact hmax j (by simpa using hj)
          · intro j hj
            cases j with
            | zero => simpa using hgt
            | succ j =>
                simp only [List.getD_cons_succ]
                exact hfirst j (by omega)
      · rw [show idxmaxAux (y :: ys) best bi cur = idxmaxAux ys best bi (cur + 1) by
          simp [idxmaxAux, if_neg h]]
        rcases ih best bi (cur + 1) with ⟨hr, hb⟩ | ⟨k, hk, hr, hgt, hmax, hfirst⟩
        · left
          refine ⟨hr, ?_⟩
          intro j hj
          cases j with
          | zero => simpa using not_lt.mp h
          | succ j =>
              simp only [List.getD_cons_succ]
              exact hb j (by simpa using hj)
        · right
          refine ⟨k + 1, by simpa using hk, ?_, ?_, ?_, ?_⟩
          · rw [hr]; omega
          · simpa using hgt
          · intro j hj
            cases j with
            | zero => simpa using le_of_lt (lt_of_le_of_lt (not_lt.mp h) hgt)
            | succ j =>
                simp only [List.getD_cons_succ]
                exact hmax j (by simpa using hj)
          · intro j hj
            cases j with
            | zero => simpa using lt_of_le_of_lt (not_lt.mp h) hgt
            | succ j =>
                simp only [List.getD_cons_succ]
                exact hfirst j (by omega)

/-- `idxmax` returns the index of the first occurrence of the maximum of a
nonempty list: it is in range, no element exceeds it, and every earlier
element is strictly below it. -/
theorem idxmax_isFirstArgmax (l : List ℚ) (hne : l ≠ []) :
    idxmax l < l.length ∧
    (∀ j, j < l.length → l.getD j 0 ≤ l.getD (idxmax l) 0) ∧
    (∀ j, j < idxmax l → l.getD j 0 < l.getD (idxmax l) 0) := by
  match l with
  | [] => exact absurd rfl hne
  | x :: xs =>
      have hdef : idxmax (x :: xs) = idxmaxAux xs x 0 1 := rfl
      rcases idxmaxAux_spec xs x 0 1 with ⟨hr, hb⟩ | ⟨k, hk, hr, hgt, hmax, hfirst⟩
      · rw [hdef, hr]
        refine ⟨by simp, ?_, ?_⟩
        · intro j hj
          cases j with
          | zero => simp
          | succ j =>
              simp only [List.getD_cons_succ, List.getD_cons_zero]
              exact hb j (by simpa using hj)
        · intro j hj; omega
      · rw [hdef, hr, show 1 + k = k + 1 by omega]
        refine ⟨by simpa using hk, ?_, ?_⟩
        · intro j hj
          simp only [List.getD_cons_succ]
          cases j with
          | zero => simpa using le_of_lt hgt
          | succ j =>
              simp only [List.getD_cons_succ]
              exact hmax j (by simpa using hj)
        · intro j hj
          simp only [List.getD_cons_succ]
          cases j with
          | zero => simpa using hgt
          | succ j =>
              simp only [List.getD_cons_succ]
              exact hfirst j (by omega)

/-- `getD` commutes with `map` at in-range indices. -/
theorem getD_map_lt (l : List Obs) (f : Obs → ℚ) (j : ℕ) (h : j < l.length) :
    (l.map f).getD j 0 = f (l.getD j obsDefault) := by
  rw [List.getD_eq_getElem _ _ (by simpa using h), List.getD_eq_getElem _ _ h,
    List.getElem_map]

/-- A store holding the same history for every strategy name. -/
def oneStore (df : List Obs) : Store := fun _ => some df

/-- The three-row example history of the spec (section 8): rows
`(ret,pf,wr,dd,tp,sl) = (10,1,0.5,5,5,3), (20,2,0.6,4,6,2), (15,3,0.9,1,7,1)`,
with zero trailing parameters and trade counts. -/
def hist3 : List Obs :=
  [⟨"t1", 10, 1/2, 1, 5, 0, 5, 3, 0, 0⟩,
   ⟨"t2", 20, 3/5, 2, 4, 0, 6, 2, 0, 0⟩,
   ⟨"t3", 15, 9/10, 3, 1, 0, 7, 1, 0, 0⟩]

/-- C1: for every History of length ≥ 3, the best-risk-adjusted selection
returned by `suggest` is the Observation maximizing
`profit_factor * win_rate / (max_drawdown_pct + 0.1)`, ties broken by the
lowest insertion index; and on the spec's three-row history the third row
(parameters `take_profit=7, stop_loss=1`) is selected. -/
theorem C1_best_risk_adjusted_argmax :
    (∀ (store : Store) (strategy_name : String) (df : List Obs),
      store strategy_name = some df → 3 ≤ df.length →
      ∃ s : SuggestionSet, suggest store strategy_name = some s ∧
        ∃ i, i < df.length ∧
          (∀ j, j < df.length →
            riskScore (df.getD j obsDefault) ≤ riskScore (df.getD i obsDefault)) ∧
          (∀ j, j < i →
            riskScore (df.getD j obsDefault) < riskScore (df.getD i obsDefault)) ∧
          s.best_risk_adjusted = paramsOf (df.getD i obsDefault))
    ∧ (∃ s, suggest (oneStore hist3) "spec_strategy" = some s ∧
        s.best_risk_adjusted = paramsOf (hist3.getD 2 obsDefault) ∧
        s.best_risk_adjusted = ⟨7, 1, 0, 0⟩) := by
  constructor
  · intro store strategy_name df hs hlen
    have hnl : ¬ df.length < 3 := by omega
    refine ⟨computeSuggestions df, by simp [suggest, hs, hnl], ?_⟩
    have hne : df.map riskScore ≠ [] :=
      List.length_pos.mp (by rw [List.length_map]; omega)
    obtain ⟨h1, h2, h3⟩ := idxmax_isFirstArgmax (df.map riskScore) hne
    rw [List.length_map] at h1
    refine ⟨idxmax (df.map riskScore), h1, ?_, ?_, rfl⟩
    · intro j hj
      have := h2 j (by rwa [List.length_map])
      rwa [getD_map_lt df riskScore j hj, getD_map_lt df riskScore _ h1] at this
    · intro j hj
      have hjlen : j < df.length := lt_trans hj h1
      have := h3 j hj
      rwa [getD_map_lt df riskScore j hjlen, getD_map_lt df riskScore _ h1] at this
  · refine ⟨⟨⟨6, 2, 0, 0⟩, ⟨7, 1, 0, 0⟩, ⟨33/5, 9/5, 0, 0⟩⟩, ?_, ?_, rfl⟩
    · norm_num [suggest, oneStore, hist3, computeSuggestions, idxmax, idxmaxAux,
        riskScore, paramsOf, obsDefault]
    · norm_num [hist3, paramsOf]

/-- Witness for C1: the theorem applied to the spec's concrete three-row
history. -/
theorem C1_best_risk_adjusted_argmax_witness :
    ∃ s : SuggestionSet, suggest (oneStore hist3) "w" = some s ∧
      ∃ i, i < hist3.length ∧
        (∀ j, j < hist3.length →
          riskScore (hist3.getD j obsDefault) ≤ riskScore (hist3.getD i obsDefault)) ∧
        (∀ j, j < i →
          riskScore (hist3.getD j obsDefault) < riskScore (hist3.getD i obsDefault)) ∧
        s.best_risk_adjusted = paramsOf (hist3.getD i obsDefault) :=
  C1_best_risk_adjusted_argmax.1 (oneStore hist3) "w" hist3 rfl (by norm_num [hist3])

/-- C2: for every History of length ≥ 3, the best-return selection returned
by `suggest` is the Observation with maximal `total_return_pct`, ties broken
by the lowest insertion index; on the spec's three-row history the second
row (`total_return_pct = 20`) is selected. -/
theorem C2_best_return_argmax :
    (∀ (store : Store) (strategy_name : String) (df : List Obs),
      store strategy_name = some df → 3 ≤ df.length →
      ∃ s : SuggestionSet, suggest store strategy_name = some s ∧
        ∃ i, i < df.length ∧
          (∀ j, j < df.length →
            (df.getD j obsDefault).total_return_pct ≤ (df.getD i obsDefault).total_return_pct) ∧
          (∀ j, j < i →
            (df.getD j obsDefault).total_return_pct < (df.getD i obsDefault).total_return_pct) ∧
          s.best_return = paramsOf (df.getD i obsDefault))
    ∧ (∃ s, suggest (oneStore hist3) "spec_strategy2" = some s ∧
        s.best_return = paramsOf (hist3.getD 1 obsDefault) ∧
        s.best_return = ⟨6, 2, 0, 0⟩) := by
  constructor
  · intro store strategy_name df hs hlen
    have hnl : ¬ df.length < 3 := by omega
    refine ⟨computeSuggestions df, by simp [suggest, hs, hnl], ?_⟩
    have hne : df.map (fun o => o.total_return_pct) ≠ [] :=
      List.length_pos.mp (by rw [List.length_map]; omega)
    obtain ⟨h1, h2, h3⟩ := idxmax_isFirstArgmax (df.map (fun o => o.total_return_pct)) hne
    rw [List.length_map] at h1
    refine ⟨idxmax (df.map (fun o => o.total_return_pct)), h1, ?_, ?_, ?_⟩
    · intro j hj
      have := h2 j (by rwa [List.length_map])
      rwa [getD_map_lt df (fun o => o.total_return_pct) j hj,
        getD_map_lt df (fun o => o.total_return_pct) _ h1] at this
    · intro j hj
      have hjlen : j < df.length := lt_trans hj h1
      have := h3 j hj
      rwa [getD_map_lt df (fun o => o.total_return_pct) j hjlen,
        getD_map_lt df (fun o => o.total_return_pct) _ h1] at this
    · rfl
  · refine ⟨⟨⟨6, 2, 0, 0⟩, ⟨7, 1, 0, 0⟩, ⟨33/5, 9/5, 0, 0⟩⟩, ?_, ?_, rfl⟩
    · norm_num [suggest, oneStore, hist3, computeSuggestions, idxmax, idxmaxAux,
        riskScore, paramsOf, obsDefault]
    · norm_num [hist3, paramsOf]

/-- Witness for C2: the theorem applied to the spec's concrete three-row
history. -/
theorem C2_best_return_argmax_witness :
    ∃ s : SuggestionSet, suggest (oneStore hist3) "w2" = some s ∧
      ∃ i, i < hist3.length ∧
        (∀ j, j < hist3.length →
          (hist3.getD j obsDefault).total_return_pct ≤ (hist3.getD i obsDefault).total_return_pct) ∧
        (∀ j, j < i →
          (hist3.getD j obsDefault).total_return_pct < (hist3.getD i obsDefault).total_return_pct) ∧
        s.best_return = paramsOf (hist3.getD i obsDefault) :=
  C2_best_return_argmax.1 (oneStore hist3) "w2" hist3 rfl (by norm_num [hist3])

/-- C3: whenever `suggest` returns a Suggestion Set, the exploratory
parameter set equals the best-return parameter set with `take_profit`
scaled by 1.1 and `stop_loss` scaled by 0.9, the trailing parameters copied
unchanged; and on the spec's example (best-return `take_profit=6,
stop_loss=2`) the exploratory values are 6.6 and 1.8. -/
theorem C3_exploratory_scaling :
    (∀ (store : Store) (strategy_name : String) (s : SuggestionSet),
      suggest store strategy_name = some s →
      s.exploratory.take_profit = s.best_return.take_profit * (11/10) ∧
      s.exploratory.stop_loss = s.best_return.stop_loss * (9/10) ∧
      s.exploratory.trailing_stop = s.best_return.trailing_stop ∧
      s.exploratory.trailing_activation = s.best_return.trailing_activation)
    ∧ (∃ s, suggest (oneStore hist3) "spec_strategy3" = some s ∧
        s.best_return.take_profit = 6 ∧ s.best_return.stop_loss = 2 ∧
        s.exploratory.take_profit = 33/5 ∧ s.exploratory.stop_loss = 9/5 ∧
        s.exploratory.trailing_stop = s.best_return.trailing_stop ∧
        s.exploratory.trailing_activation = s.best_return.trailing_activation) := by
  constructor
  · intro store strategy_name s h
    cases hst : store strategy_name with
    | none => simp [suggest, hst] at h
    | some df =>
        by_cases hlen : df.length < 3
        · simp [suggest, hst, hlen] at h
        · simp [suggest, hst, hlen] at h
          subst h
          exact ⟨rfl, rfl, rfl, rfl⟩
  · refine ⟨⟨⟨6, 2, 0, 0⟩, ⟨7, 1, 0, 0⟩, ⟨33/5, 9/5, 0, 0⟩⟩, ?_, rfl, rfl, rfl, rfl, rfl, rfl⟩
    norm_num [suggest, oneStore, hist3, computeSuggestions, idxmax, idxmaxAux,
      riskScore, paramsOf, obsDefault]

/-- Witness for C3: the theorem applied to the concrete three-row history,
whose best-return row has `take_profit=6, stop_loss=2`. -/
theorem C3_exploratory_scaling_witness :
    (⟨⟨6, 2, 0, 0⟩, ⟨7, 1, 0, 0⟩, ⟨33/5, 9/5, 0, 0⟩⟩ : SuggestionSet).exploratory.take_profit =
      (⟨⟨6, 2, 0, 0⟩, ⟨7, 1, 0, 0⟩, ⟨33/5, 9/5, 0, 0⟩⟩ : SuggestionSet).best_return.take_profit * (11/10) ∧
    (⟨⟨6, 2, 0, 0⟩, ⟨7, 1, 0, 0⟩, ⟨33/5, 9/5, 0, 0⟩⟩ : SuggestionSet).exploratory.stop_loss =
      (⟨⟨6, 2, 0, 0⟩, ⟨7, 1, 0, 0⟩, ⟨33/5, 9/5, 0, 0⟩⟩ : SuggestionSet).best_return.stop_loss * (9/10) ∧
    (⟨⟨6, 2, 0, 0⟩, ⟨7, 1, 0, 0⟩, ⟨33/5, 9/5, 0, 0⟩⟩ : SuggestionSet).exploratory.trailing_stop =
      (⟨⟨6, 2, 0, 0⟩, ⟨7, 1, 0, 0⟩, ⟨33/5, 9/5, 0, 0⟩⟩ : SuggestionSet).best_return.trailing_stop ∧
    (⟨⟨6, 2, 0, 0⟩, ⟨7, 1, 0, 0⟩, ⟨33/5, 9/5, 0, 0⟩⟩ : SuggestionSet).exploratory.trailing_activation =
      (⟨⟨6, 2, 0, 0⟩, ⟨7, 1, 0, 0⟩, ⟨33/5, 9/5, 0, 0⟩⟩ : SuggestionSet).best_return.trailing_activation :=
  C3_exploratory_scaling.1 (oneStore hist3) "spec_strategy3"
    ⟨⟨6, 2, 0, 0⟩, ⟨7, 1, 0, 0⟩, ⟨33/5, 9/5, 0, 0⟩⟩
    (by norm_num [suggest, oneStore, hist3, computeSuggestions, idxmax, idxmaxAux,
      riskScore, paramsOf, obsDefault])

/-- C4: `suggest` returns `None` exactly when the loaded History has fewer
than 3 rows (so it returns a Suggestion Set for every History of length
≥ 3), and a missing history file behaves as an empty History, yielding
`None` without an error. -/
theorem C4_none_iff_short :
    (∀ (store : Store) (strategy_name : String),
      (suggest store strategy_name = none ↔ (load store strategy_name).length < 3)) ∧
    (∀ strategy_name, emptyStore strategy_name = none ∧
      load emptyStore strategy_name = [] ∧ suggest emptyStore strategy_name = none) := by
  constructor
  · intro store strategy_name
    cases hst : store strategy_name with
    | none => simp [suggest, load, hst]
    | some df =>
        by_cases hlen : df.length < 3
        · simp [suggest, load, hst, hlen]
        · simp [suggest, load, hst, hlen]
  · intro strategy_name
    exact ⟨rfl, rfl, rfl⟩

/-- C5 counterexample: a metrics entry that is a nested structure whose
`value` entry is a non-numeric string does NOT store 0 — the coercion
raises an uncaught exception (the nested-branch `float` call sits outside
the `try/except`), and the whole row construction propagates it. -/
theorem C5_nested_value_raises :
    coerceField (some (JValue.obj [("value", JValue.str "abc")])) = .error () ∧
    mkRow "t" [("total_return_pct", JValue.obj [("value", JValue.str "abc")])] []
      = .error () := by
  exact ⟨rfl, rfl⟩

/-- C5 (amended): the per-key coercion takes the `value` entry of a nested
structure, uses numeric (and boolean) values directly, otherwise attempts a
numeric parse storing 0 on failure, and stores 0 for absent keys — EXCEPT
that a nested `value` entry that cannot be coerced raises an error instead
of storing 0. -/
theorem C5_coercion_cases :
    (coerceField none = .ok 0) ∧
    (∀ q : ℚ, coerceField (some (JValue.num q)) = .ok q) ∧
    (∀ b : Bool, coerceField (some (JValue.bool b)) = .ok (if b then 1 else 0)) ∧
    (∀ (fields : List (String × JValue)) (w : JValue) (q : ℚ),
      fields.lookup "value" = some w → pyFloat w = some q →
      coerceField (some (JValue.obj fields)) = .ok q) ∧
    (∀ (fields : List (String × JValue)) (w : JValue),
      fields.lookup "value" = some w → pyFloat w = none →
      coerceField (some (JValue.obj fields)) = .error ()) ∧
    (∀ fields : List (String × JValue),
      fields.lookup "value" = none → coerceField (some (JValue.obj fields)) = .ok 0) ∧
    (∀ (s : String) (q : ℚ),
      pyFloatOfString s = some q → coerceField (some (JValue.str s)) = .ok q) ∧
    (∀ s : String,
      pyFloatOfString s = none → coerceField (some (JValue.str s)) = .ok 0) ∧
    (∀ elems : List JValue, coerceField (some (JValue.arr elems)) = .ok 0) ∧
    (coerceField (some JValue.null) = .ok 0) := by
  refine ⟨rfl, fun q => rfl, fun b => rfl, ?_, ?_, ?_, ?_, ?_, fun es => rfl, rfl⟩
  · intro fields w q h1 h2
    simp [coerceField, h1, h2]
  · intro fields w h1 h2
    simp [coerceField, h1, h2]
  · intro fields h1
    simp [coerceField, h1]
  · intro s q h
    simp [coerceField, h]
  · intro s h
    simp [coerceField, h]

/-- Witness for C5's amended coercion cases at concrete inputs: a nested
numeric `value`, a parsable string, and an unparsable string. -/
theorem C5_coercion_cases_witness :
    coerceField (some (JValue.obj [("value", JValue.num 7)])) = .ok 7 ∧
    coerceField (some (JValue.str "7")) = .ok 7 ∧
    coerceField (some (JValue.str "abc")) = .ok 0 :=
  ⟨C5_coercion_cases.2.2.2.1 [("value", JValue.num 7)] (JValue.num 7) 7 rfl rfl,
   C5_coercion_cases.2.2.2.2.2.2.1 "7" 7 rfl,
   C5_coercion_cases.2.2.2.2.2.2.2.1 "abc" rfl⟩

/-- Coerce a whole sequence of `(timestamp, metrics, parameters)` events. -/
def mkRows : List (String × List (String × JValue) × List (String × JValue)) →
    Except Unit (List Obs)
  | [] => .ok []
  | e :: es => do
      let r ← mkRow e.1 e.2.1 e.2.2
      let rs ← mkRows es
      pure (r :: rs)

/-- Run `update_optimization_history` once per event, threading the store. -/
def appendMany (store : Store) (strategy_name : String) :
    List (String × List (String × JValue) × List (String × JValue)) →
    Except Unit Store
  | [] => .ok store
  | e :: es => do
      let s2 ← update_optimization_history store strategy_name e.1 e.2.1 e.2.2
      appendMany s2 strategy_name es

/-- A successful append rewrites the store pointwise. -/
theorem update_ok (store : Store) (strategy_name ts : String)
    (metrics parameters : List (String × JValue)) (row : Obs)
    (h : mkRow ts metrics parameters = .ok row) :
    update_optimization_history store strategy_name ts metrics parameters =
      .ok (fun n => if n = strategy_name
                    then some ((store n).getD [] ++ [row])
                    else store n) := by
  simp [update_optimization_history, h]

/-- After a successful append, the strategy's loaded history gains exactly
the new row at the end; other strategies are untouched. -/
theorem load_update_ok (store : Store) (strategy_name ts : String)
    (metrics parameters : List (String × JValue)) (row : Obs) (store2 : Store)
    (h : mkRow ts metrics parameters = .ok row)
    (h2 : update_optimization_history store strategy_name ts metrics parameters = .ok store2) :
    load store2 strategy_name = load store strategy_name ++ [row] ∧
    (∀ n, n ≠ strategy_name → load store2 n = load store n) := by
  rw [update_ok store strategy_name ts metrics parameters row h] at h2
  injection h2 with h2
  subst h2
  constructor
  · simp [load]
  · intro n hn
    simp [load, hn]

/-- `appendMany` extends the loaded history by all the coerced rows, in
order. -/
theorem appendMany_ok (strategy_name : String) :
    ∀ (entries : List (String × List (String × JValue) × List (String × JValue)))
      (store : Store) (rows : List Obs),
      mkRows entries = .ok rows →
      ∃ store2, appendMany store strategy_name entries = .ok store2 ∧
        load store2 strategy_name = load store strategy_name ++ rows := by
  intro entries
  induction entries with
  | nil =>
      intro store rows h
      injection h with h
      subst h
      exact ⟨store, rfl, by simp⟩
  | cons e es ih =>
      intro store rows h
      cases hr : mkRow e.1 e.2.1 e.2.2 with
      | error err =>
          have hred : mkRows (e :: es) = Except.error err := by
            simp only [mkRows]
            rw [hr]
            rfl
          rw [hred] at h
          exact Except.noConfusion h
      | ok row =>
          cases hrs : mkRows es with
          | error err =>
              have hred : mkRows (e :: es) = Except.error err := by
                simp only [mkRows]
                rw [hr, hrs]
                rfl
              rw [hred] at h
              exact Except.noConfusion h
          | ok rest =>
              have hred : mkRows (e :: es) = Except.ok (row :: rest) := by
                simp only [mkRows]
                rw [hr, hrs]
                rfl
              rw [hred] at h
              injection h with h
              subst h
              have hs2 := update_ok store strategy_name e.1 e.2.1 e.2.2 row hr
              obtain ⟨hload, -⟩ :=
                load_update_ok store strategy_name e.1 e.2.1 e.2.2 row _ hr hs2
              obtain ⟨s3, hs3, hload3⟩ := ih _ rest hrs
              refine ⟨s3, ?_, ?_⟩
              · have : appendMany store strategy_name (e :: es) =
                    appendMany (fun n => if n = strategy_name
                      then some ((store n).getD [] ++ [row])
                      else store n) strategy_name es := by
                  simp only [appendMany]
                  rw [hs2]
                  rfl
                rw [this, hs3]
              · rw [hload3, hload]
                simp

/-- Coercing a batch of events yields one row per event. -/
theorem mkRows_length :
    ∀ (entries : List (String × List (String × JValue) × List (String × JValue)))
      (rows : List Obs), mkRows entries = .ok rows → rows.length = entries.length := by
  intro entries
  induction entries with
  | nil =>
      intro rows h
      injection h with h
      subst h
      rfl
  | cons e es ih =>
      intro rows h
      cases hr : mkRow e.1 e.2.1 e.2.2 with
      | error err =>
          have hred : mkRows (e :: es) = Except.error err := by
            simp only [mkRows]
            rw [hr]
            rfl
          rw [hred] at h
          exact Except.noConfusion h
      | ok row =>
          cases hrs : mkRows es with
          | error err =>
              have hred : mkRows (e :: es) = Except.error err := by
                simp only [mkRows]
                rw [hr, hrs]
                rfl
              rw [hred] at h
              exact Except.noConfusion h
          | ok rest =>
              have hred : mkRows (e :: es) = Except.ok (row :: rest) := by
                simp only [mkRows]
                rw [hr, hrs]
                rfl
              rw [hred] at h
              injection h with h
              subst h
              simp [ih rest hrs]

/-- C6: for every valid event, append followed by load returns the previous
History extended with exactly the coerced Observation as its last element
(other strategies untouched); and appending N valid events to a fresh store
yields a History of exactly the N coerced rows, in insertion order. -/
theorem C6_append_load_roundtrip :
    (∀ (store : Store) (strategy_name ts : String)
       (metrics parameters : List (String × JValue)) (row : Obs),
      mkRow ts metrics parameters = .ok row →
      ∃ store2,
        update_optimization_history store strategy_name ts metrics parameters = .ok store2 ∧
        load store2 strategy_name = load store strategy_name ++ [row] ∧
        (load store2 strategy_name).getLast? = some row ∧
        (load store2 strategy_name).length = (load store strategy_name).length + 1 ∧
        (∀ n, n ≠ strategy_name → load store2 n = load store n))
    ∧ (∀ (strategy_name : String)
         (entries : List (String × List (String × JValue) × List (String × JValue)))
         (rows : List Obs),
        mkRows entries = .ok rows →
        ∃ store2, appendMany emptyStore strategy_name entries = .ok store2 ∧
          load store2 strategy_name = rows ∧
          (load store2 strategy_name).length = entries.length) := by
  constructor
  · intro store strategy_name ts metrics parameters row h
    have hs2 := update_ok store strategy_name ts metrics parameters row h
    obtain ⟨hload, hother⟩ :=
      load_update_ok store strategy_name ts metrics parameters row _ h hs2
    refine ⟨_, hs2, hload, ?_, ?_, hother⟩
    · rw [hload]; simp
    · rw [hload]; simp
  · intro strategy_name entries rows h
    obtain ⟨store2, hs2, hload⟩ := appendMany_ok strategy_name entries emptyStore rows h
    have : load emptyStore strategy_name = [] := rfl
    rw [this] at hload
    simp only [List.nil_append] at hload
    exact ⟨store2, hs2, hload, by rw [hload, mkRows_length entries rows h]⟩

/-- Witness for C6: one concrete event appended to the fresh store, and a
two-event batch. -/
theorem C6_append_load_roundtrip_witness :
    (∃ store2,
      update_optimization_history emptyStore "s" "t1"
        [("total_return_pct", JValue.num 10)] [("take_profit", JValue.num 5)] = .ok store2 ∧
      load store2 "s" = load emptyStore "s" ++ [⟨"t1", 10, 0, 0, 0, 0, 5, 0, 0, 0⟩] ∧
      (load store2 "s").getLast? = some ⟨"t1", 10, 0, 0, 0, 0, 5, 0, 0, 0⟩ ∧
      (load store2 "s").length = (load emptyStore "s").length + 1 ∧
      (∀ n, n ≠ "s" → load store2 n = load emptyStore n)) ∧
    (∃ store2,
      appendMany emptyStore "s"
        [("t1", [("total_return_pct", JValue.num 10)], [("take_profit", JValue.num 5)]),
         ("t2", [("total_return_pct", JValue.num 20)], [("take_profit", JValue.num 6)])] = .ok store2 ∧
      load store2 "s" = [⟨"t1", 10, 0, 0, 0, 0, 5, 0, 0, 0⟩, ⟨"t2", 20, 0, 0, 0, 0, 6, 0, 0, 0⟩] ∧
      (load store2 "s").length = 2) :=
  ⟨C6_append_load_roundtrip.1 emptyStore "s" "t1"
      [("total_return_pct", JValue.num 10)] [("take_profit", JValue.num 5)]
      ⟨"t1", 10, 0, 0, 0, 0, 5, 0, 0, 0⟩ rfl,
   C6_append_load_roundtrip.2 "s"
      [("t1", [("total_return_pct", JValue.num 10)], [("take_profit", JValue.num 5)]),
       ("t2", [("total_return_pct", JValue.num 20)], [("take_profit", JValue.num 6)])]
      [⟨"t1", 10, 0, 0, 0, 0, 5, 0, 0, 0⟩, ⟨"t2", 20, 0, 0, 0, 0, 6, 0, 0, 0⟩] rfl⟩

/-- C7: `generate_pine_script` is total (it never raises), and each of the
four parameters, when missing from the mapping, behaves exactly as if it
were present with its fixed fallback constant — `take_profit=5.0,
stop_loss=3.0, trailing_stop=1.0, trailing_activation=0.5` — so that
constant is what lands in the emitted text; with all four missing, the
output is the template filled from exactly that fallback mapping. -/
theorem C7_render_missing_key_defaults :
    ∀ (strategy_name suggestion_type date : String) (ps : List (String × ℚ)),
      (ps.lookup "take_profit" = none →
        generate_pine_script strategy_name suggestion_type date ps =
        generate_pine_script strategy_name suggestion_type date
          (("take_profit", (5:ℚ)) :: ps)) ∧
      (ps.lookup "stop_loss" = none →
        generate_pine_script strategy_name suggestion_type date ps =
        generate_pine_script strategy_name suggestion_type date
          (("stop_loss", (3:ℚ)) :: ps)) ∧
      (ps.lookup "trailing_stop" = none →
        generate_pine_script strategy_name suggestion_type date ps =
        generate_pine_script strategy_name suggestion_type date
          (("trailing_stop", (1:ℚ)) :: ps)) ∧
      (ps.lookup "trailing_activation" = none →
        generate_pine_script strategy_name suggestion_type date ps =
        generate_pine_script strategy_name suggestion_type date
          (("trailing_activation", (1/2:ℚ)) :: ps)) ∧
      (ps.lookup "take_profit" = none → ps.lookup "stop_loss" = none →
       ps.lookup "trailing_stop" = none → ps.lookup "trailing_activation" = none →
        generate_pine_script strategy_name suggestion_type date ps =
        generate_pine_script strategy_name suggestion_type date
          [("take_profit", 5), ("stop_loss", 3), ("trailing_stop", 1),
           ("trailing_activation", 1/2)]) := by
  intro strategy_name suggestion_type date ps
  refine ⟨?_, ?_, ?_, ?_, ?_⟩
  · intro h; simp [generate_pine_script, getParam, List.lookup, h]
  · intro h; simp [generate_pine_script, getParam, List.lookup, h]
  · intro h; simp [generate_pine_script, getParam, List.lookup, h]
  · intro h; simp [generate_pine_script, getParam, List.lookup, h]
  · intro h1 h2 h3 h4
    simp [generate_pine_script, getParam, List.lookup, h1, h2, h3, h4]

/-- Witness for C7: the empty parameter mapping, where every key is missing. -/
theorem C7_render_missing_key_defaults_witness :
    generate_pine_script "StratA" "best_return" "2025-01-01" [] =
    generate_pine_script "StratA" "best_return" "2025-01-01"
      [("take_profit", 5), ("stop_loss", 3), ("trailing_stop", 1),
       ("trailing_activation", 1/2)] :=
  (C7_render_missing_key_defaults "StratA" "best_return" "2025-01-01" []).2.2.2.2
    rfl rfl rfl rfl

/-- A substring occurrence can sit to the right of a prepended chunk. -/
theorem strHasSub_here (pre sub post : String) : strHasSub (pre ++ (sub ++ post)) sub :=
  ⟨pre, post, rfl⟩

/-- Substring occurrences are preserved by prepending. -/
theorem strHasSub_ext (s t sub : String) (h : strHasSub t sub) : strHasSub (s ++ t) sub := by
  obtain ⟨a, b, rfl⟩ := h
  exact ⟨s ++ a, b, (String.append_assoc s a (sub ++ b)).symm⟩

set_option maxRecDepth 4096

/-- C10: an incoming event whose metrics or parameters mapping is empty (or
absent — `data.get` yields an empty mapping) appends nothing to any History,
computes no Suggestion Set, and returns the unchanged store with only the
sample-script artifact; and the emitted sample script carries the fixed
constants `takeProfit = 5.0, stopLoss = 3.0, trailingStop = 1.5,
trailingActivation = 2.0`. -/
theorem C10_empty_event_fallback :
    (∀ (chart : List Obs → Except String Unit) (store : Store)
       (strategy_name ts : String) (metrics parameters : List (String × JValue)),
      metrics = [] ∨ parameters = [] →
      webhook chart store strategy_name ts metrics parameters =
        .ok (store, none, [strategy_name ++ "_sample.pine"]))
    ∧ (∀ strategy_name date : String,
        strHasSub (generate_sample_pine_script strategy_name date)
          "takeProfit = 5.0\nstopLoss = 3.0\ntrailingStop = 1.5\ntrailingActivation = 2.0\n") := by
  constructor
  · intro chart store strategy_name ts metrics parameters h
    rcases h with rfl | rfl
    · simp [webhook]
    · simp [webhook]
  · intro strategy_name date
    unfold generate_sample_pine_script
    repeat apply strHasSub_ext
    exact ⟨" - Sample\", overlay=true)\n\n// Input parameters\n",
      "\n// Example entry condition\nlongCondition = ta.crossover(ta.sma(close, 14), ta.sma(close, 28))\nif (longCondition)\n    strategy.entry(\"Long\", strategy.long)\n    \n// Example exit with parameters\nstrategy.exit(\"TP/SL\", \"Long\", profit=takeProfit, loss=stopLoss, trail_points=trailingStop, trail_offset=trailingActivation)\n",
      by decide⟩

/-- Witness for C10: an event with an empty metrics mapping against the
fresh store. -/
theorem C10_empty_event_fallback_witness :
    webhook (fun _ => Except.ok ()) emptyStore "s" "t" [] [("take_profit", JValue.num 5)] =
      .ok (emptyStore, none, ["s" ++ "_sample.pine"]) :=
  C10_empty_event_fallback.1 (fun _ => Except.ok ()) emptyStore "s" "t" []
    [("take_profit", JValue.num 5)] (Or.inl rfl)

/-- A five-row history: the three spec rows plus two more. -/
def hist5 : List Obs :=
  hist3 ++ [⟨"t4", 5, 1/2, 1, 2, 0, 4, 2, 0, 0⟩,
            ⟨"t5", 8, 1/2, 1, 3, 0, 5, 2, 0, 0⟩]

/-- C8: a failure raised inside the visualization step is caught and turned
into an error-log line, never propagated: for every History of length ≥ 5,
even when the charting body raises, the flow still returns the Suggestion
Set that `suggest` computes and still writes the suggestions-summary
artifact, with the failure only logged. -/
theorem C8_viz_failure_suppressed :
    ∀ (e : String) (chart : List Obs → Except String Unit) (store : Store)
      (strategy_name : String) (df : List Obs),
      store strategy_name = some df → 5 ≤ df.length → chart df = .error e →
      (generate_optimization_suggestions chart store strategy_name).1
        = suggest store strategy_name ∧
      (generate_optimization_suggestions chart store strategy_name).1
        = some (computeSuggestions df) ∧
      (strategy_name ++ "_suggestions.json")
        ∈ (generate_optimization_suggestions chart store strategy_name).2.1 ∧
      (generate_optimization_suggestions chart store strategy_name).2.2
        = ["Visualization error: " ++ e] := by
  intro e chart store strategy_name df hst hlen hchart
  have hnl : ¬ df.length < 3 := by omega
  refine ⟨?_, ?_, ?_, ?_⟩ <;>
    simp [generate_optimization_suggestions, suggest, hst, hnl, hlen,
      generate_visualization, hchart]

/-- Witness for C8: the five-row history with a charting oracle that always
raises. -/
theorem C8_viz_failure_suppressed_witness :
    (generate_optimization_suggestions (fun _ => Except.error "boom")
        (oneStore hist5) "s").1 = suggest (oneStore hist5) "s" ∧
    (generate_optimization_suggestions (fun _ => Except.error "boom")
        (oneStore hist5) "s").1 = some (computeSuggestions hist5) ∧
    ("s" ++ "_suggestions.json")
      ∈ (generate_optimization_suggestions (fun _ => Except.error "boom")
          (oneStore hist5) "s").2.1 ∧
    (generate_optimization_suggestions (fun _ => Except.error "boom")
        (oneStore hist5) "s").2.2 = ["Visualization error: " ++ "boom"] :=
  C8_viz_failure_suppressed "boom" (fun _ => Except.error "boom")
    (oneStore hist5) "s" hist5 rfl (by norm_num [hist5, hist3]) rfl

/-- C9 counterexample: as the source executes it, `generate_pine_script` is
neither free of writes nor deterministic in the claim's arguments
(strategy name, label, parameter mapping): every call performs a file
write, and two calls with identical arguments made under different clock
dates (the function stamps `datetime.now()` internally at line 292) emit
different text. -/
theorem C9_render_impure_counterexample :
    (generate_pine_script_io "2025-01-01" "StratA" "best_return" []).2 ≠ [] ∧
    (generate_pine_script_io "2025-01-01" "StratA" "best_return" []).1 ≠
      (generate_pine_script_io "2025-01-02" "StratA" "best_return" []).1 := by
  constructor
  · simp [generate_pine_script_io]
  · decide

/-- C9 (amended): the text `render` emits is a deterministic pure function
of strategy name, label, generation date and parameter mapping — it equals
the template filled from exactly those inputs — and it contains the
strategy name, the label, the date, and all four (formatted) parameter
values; but the component is not free of storage writes: it itself writes
exactly one artifact, `{name}_{label}_suggested.pine`, whose content is
that same rendered text, and since the date is read from the clock inside
the function, the output is deterministic only once the date is counted
among the inputs. -/
theorem C9_render_text_deterministic :
    ∀ (now strategy_name suggestion_type : String) (ps : List (String × ℚ)),
      (generate_pine_script_io now strategy_name suggestion_type ps).1 =
        generate_pine_script strategy_name suggestion_type now ps ∧
      (generate_pine_script_io now strategy_name suggestion_type ps).2 =
        [(strategy_name ++ "_" ++ (suggestion_type ++ "_suggested.pine"),
          generate_pine_script strategy_name suggestion_type now ps)] ∧
      strHasSub (generate_pine_script strategy_name suggestion_type now ps) strategy_name ∧
      strHasSub (generate_pine_script strategy_name suggestion_type now ps) suggestion_type ∧
      strHasSub (generate_pine_script strategy_name suggestion_type now ps) now ∧
      strHasSub (generate_pine_script strategy_name suggestion_type now ps)
        (fmtQ (getParam ps "take_profit" 5)) ∧
      strHasSub (generate_pine_script strategy_name suggestion_type now ps)
        (fmtQ (getParam ps "stop_loss" 3)) ∧
      strHasSub (generate_pine_script strategy_name suggestion_type now ps)
        (fmtQ (getParam ps "trailing_stop" 1)) ∧
      strHasSub (generate_pine_script strategy_name suggestion_type now ps)
        (fmtQ (getParam ps "trailing_activation" (1/2))) := by
  intro now strategy_name suggestion_type ps
  refine ⟨rfl, rfl, ?_, ?_, ?_, ?_, ?_, ?_, ?_⟩ <;>
    · unfold generate_pine_script
      repeat first
        | exact strHasSub_here _ _ _
        | apply strHasSub_ext
